import Mathlib

/-!
Shallow embedding of the norus/blog repository:
the blog-post page template (`BlogPostTemplate` in the template source file)
and the typography configuration module (`src/utils/typography.js`).

The template is a pure rendering function over framework-supplied props
(`this.props.data`, `this.props.pathContext`); we embed its render output as
an explicit tree of nodes and prove the specification's claims by querying
that tree with extraction functions.
-/

set_option maxHeartbeats 1000000

/-- Frontmatter of a markdown post: `frontmatter { title date }` in the page query. -/
structure Frontmatter where
  title : String
  date : String
deriving Repr, DecidableEq

/-- A post as returned by the page query: `markdownRemark { id html frontmatter }`. -/
structure Post where
  id : String
  html : String
  frontmatter : Frontmatter
deriving Repr, DecidableEq

/-- `fields { slug }` of a sibling post in the navigation context. -/
structure PostFields where
  slug : String
deriving Repr, DecidableEq

/-- A sibling post summary from `pathContext`: the template reads
`fields.slug` and `frontmatter.title` of it. -/
structure SiblingSummary where
  fields : PostFields
  frontmatter : Frontmatter
deriving Repr, DecidableEq

/-- `siteMetadata { title author }` from the page query. -/
structure SiteMetadata where
  title : String
  author : String
deriving Repr, DecidableEq

/-- `site { siteMetadata }` from the page query. -/
structure Site where
  siteMetadata : SiteMetadata
deriving Repr, DecidableEq

/-- The query result handed to the template as `this.props.data`. -/
structure QueryData where
  site : Site
  markdownRemark : Post
deriving Repr, DecidableEq

/-- `this.props.pathContext`: optional previous/next sibling summaries.
`none` embeds the absent (undefined) JavaScript value, which is falsy in the
`previous && (...)` conditional-rendering idiom. -/
structure PathContext where
  previous : Option SiblingSummary
  next : Option SiblingSummary
deriving Repr, DecidableEq

/-- The props of `BlogPostTemplate`. -/
structure TemplateProps where
  data : QueryData
  pathContext : PathContext
deriving Repr, DecidableEq

/-- The per-post discussion configuration `disqusConfig` built in `render`. -/
structure DisqusConfig where
  identifier : String
  title : String
deriving Repr, DecidableEq

/-- The render output: a tree of React elements as produced by the JSX in
`BlogPostTemplate.render`.  `element tag dangerousHtml children` embeds a host
element; `dangerousHtml = some h` embeds `dangerouslySetInnerHTML` with
`__html` set to `h` (raw, unescaped injection).  `helmet` embeds the
`Helmet title` head metadata, `link` a `gatsby-link` `Link` with its `to` and
`rel` props and its JSX children, and `discussionEmbed` the `DiscussionEmbed`
comment-widget mount point with its `shortname` and `config` props. -/
inductive ReactNode : Type where
  | text (s : String) : ReactNode
  | helmet (title : String) : ReactNode
  | element (tag : String) (dangerousHtml : Option String) (children : List ReactNode) : ReactNode
  | link (target : String) (rel : String) (children : List ReactNode) : ReactNode
  | discussionEmbed (shortname : String) (config : DisqusConfig) : ReactNode

/-- The body of `BlogPostTemplate.render`, embedded one JSX node at a time.
Style-only props (inline `style` objects built from `rhythm`) carry no data
from the inputs other than spacing and are not part of the embedded tree.
JSX text runs adjacent to an interpolated expression become separate text
children, exactly as React child arrays do. -/
def BlogPostTemplate.render (props : TemplateProps) : ReactNode :=
  let post := props.data.markdownRemark
  let siteTitle := props.data.site.siteMetadata.title
  let disqusShortname := "dude-wait4-io"
  let disqusConfig : DisqusConfig := { identifier := post.id, title := post.frontmatter.title }
  ReactNode.element ("div") none
    ([ ReactNode.helmet (post.frontmatter.title ++ " | " ++ siteTitle)
     , ReactNode.element ("h2") none [ReactNode.text post.frontmatter.title]
     , ReactNode.element ("p") none [ReactNode.text post.frontmatter.date]
     , ReactNode.element ("hr") none []
     , ReactNode.element ("div") (some post.html) []
     , ReactNode.element ("hr") none []
     , ReactNode.element ("ul") none
         ((match props.pathContext.previous with
           | some p =>
             [ReactNode.element ("li") none
               [ReactNode.link p.fields.slug ("prev")
                 [ReactNode.text ("← "), ReactNode.text p.frontmatter.title]]]
           | none => [])
          ++
          (match props.pathContext.next with
           | some n =>
             [ReactNode.element ("li") none
               [ReactNode.link n.fields.slug ("next")
                 [ReactNode.text n.frontmatter.title, ReactNode.text (" →")]]]
           | none => []))
     , ReactNode.discussionEmbed disqusShortname disqusConfig
     ])

/-- A navigation link occurrence in a render tree: the `to` target, the `rel`
attribute and the JSX children of the `Link`. -/
structure LinkEntry where
  target : String
  rel : String
  children : List ReactNode

mutual

/-- All `Link` occurrences in a node, in document order. -/
def nodeLinks : ReactNode → List LinkEntry
  | .element _ _ cs => listLinks cs
  | .link t r cs => [⟨t, r, cs⟩]
  | _ => []

/-- All `Link` occurrences in a list of nodes, in document order. -/
def listLinks : List ReactNode → List LinkEntry
  | [] => []
  | c :: cs => nodeLinks c ++ listLinks cs

end

mutual

/-- All `Helmet` page-head titles in a node, in document order. -/
def nodeHelmetTitles : ReactNode → List String
  | .element _ _ cs => listHelmetTitles cs
  | .helmet t => [t]
  | _ => []

/-- All `Helmet` page-head titles in a list of nodes. -/
def listHelmetTitles : List ReactNode → List String
  | [] => []
  | c :: cs => nodeHelmetTitles c ++ listHelmetTitles cs

end

mutual

/-- All raw-HTML injections (`dangerouslySetInnerHTML` payloads) in a node,
in document order. -/
def nodeRawHtml : ReactNode → List String
  | .element _ (some h) _ => [h]
  | .element _ none cs => listRawHtml cs
  | _ => []

/-- All raw-HTML injections in a list of nodes. -/
def listRawHtml : List ReactNode → List String
  | [] => []
  | c :: cs => nodeRawHtml c ++ listRawHtml cs

end

mutual

/-- All comment-widget embeds in a node, in document order, as
(shortname, config) pairs. -/
def nodeDisqusEmbeds : ReactNode → List (String × DisqusConfig)
  | .element _ _ cs => listDisqusEmbeds cs
  | .discussionEmbed s c => [(s, c)]
  | _ => []

/-- All comment-widget embeds in a list of nodes. -/
def listDisqusEmbeds : List ReactNode → List (String × DisqusConfig)
  | [] => []
  | c :: cs => nodeDisqusEmbeds c ++ listDisqusEmbeds cs

end

/-- Concatenated immediate text children of a node list (the visible label of
a `Link`, whose JSX children are text runs). -/
def textConcat : List ReactNode → String
  | [] => ""
  | ReactNode.text s :: cs => s ++ textConcat cs
  | _ :: cs => textConcat cs

/-- A semantic item of the rendered document fragment, with style-only
elements (`hr`, inline styles) and structural wrappers (`div`, `h2`, `p`,
`ul`, `li`) erased; items are listed in document order. -/
inductive Item : Type where
  | titleMeta (t : String) : Item
  | textItem (s : String) : Item
  | rawHtml (h : String) : Item
  | navLink (target : String) (rel : String) (label : String) : Item
  | comments (shortname : String) (identifier : String) (title : String) : Item
deriving Repr, DecidableEq

mutual

/-- The semantic items of a node, in document order. -/
def nodeItems : ReactNode → List Item
  | .text s => [.textItem s]
  | .helmet t => [.titleMeta t]
  | .element _ (some h) _ => [.rawHtml h]
  | .element _ none cs => listItems cs
  | .link t r cs => [.navLink t r (textConcat cs)]
  | .discussionEmbed s c => [.comments s c.identifier c.title]

/-- The semantic items of a list of nodes, in document order. -/
def listItems : List ReactNode → List Item
  | [] => []
  | c :: cs => nodeItems c ++ listItems cs

end

/-- The override installed on the third-party theme in
`src/src/utils/typography.js`: a function of the typography helpers (the
destructured `rhythm`) and the options, returning the CSS rules as an
ordered association of selector to declarations.  The source ignores both
arguments, which the polymorphic parameters make explicit. -/
def overrideThemeStyles {α β : Type} (helpers : α) (options : β) :
    List (String × List (String × String)) :=
  [ (("a"), [(("color"), ("#3889f7")), (("backgroundImage"), ("none"))])
  , (("a:hover"), [(("color"), ("#e13532")), (("textDecoration"), ("underline"))]) ]

/-- Whether the typography module's load-time code calls
`typography.injectStyles()`, as a function of the NODE_ENV environment
variable (`none` embeds an unset variable, which compares unequal to any
string under the strict `!==` of the source guard
`if (process.env.NODE_ENV !== 'production')`). -/
def injectStylesAtLoad (node_env : Option String) : Bool :=
  node_env != some ("production")

/-- Replace the author field of the queried site metadata, leaving every
other input unchanged. -/
def withAuthor (props : TemplateProps) (a : String) : TemplateProps :=
  { props with
      data := { props.data with
        site := { siteMetadata :=
          { props.data.site.siteMetadata with author := a } } } }

/-- A concrete post for evaluating the template. -/
def examplePost : Post :=
  { id := ("post-1"), html := ("<p>body</p>"),
    frontmatter := { title := ("Hello"), date := ("May 25, 2018") } }

/-- A concrete site for evaluating the template. -/
def exampleSite : Site :=
  { siteMetadata := { title := ("Blog"), author := ("norus") } }

/-- A concrete previous sibling. -/
def examplePrev : SiblingSummary :=
  { fields := { slug := ("/first-post/") },
    frontmatter := { title := ("First"), date := ("May 07, 2018") } }

/-- A concrete next sibling. -/
def exampleNextPost : SiblingSummary :=
  { fields := { slug := ("/third-post/") },
    frontmatter := { title := ("Third"), date := ("Jun 01, 2018") } }

/-- Concrete props with both siblings present. -/
def exampleBoth : TemplateProps :=
  { data := { site := exampleSite, markdownRemark := examplePost },
    pathContext := { previous := some examplePrev, next := some exampleNextPost } }

/-- Concrete props for a terminal post: neither sibling present. -/
def exampleTerminal : TemplateProps :=
  { data := { site := exampleSite, markdownRemark := examplePost },
    pathContext := { previous := none, next := none } }

/-- Claim C1: for every post rendered with both a previous and a next sibling
present in the page context, the render output contains a previous navigation
link (`rel` prev) whose target is `previous.fields.slug` and whose label text
carries `previous.frontmatter.title` as its own text child, and a next
navigation link (`rel` next) whose target is `next.fields.slug` and whose
label text carries `next.frontmatter.title` as its own text child. -/
theorem both_siblings_render_both_links (props : TemplateProps)
    (p n : SiblingSummary)
    (hp : props.pathContext.previous = some p)
    (hn : props.pathContext.next = some n) :
    (∃ e ∈ nodeLinks (BlogPostTemplate.render props),
        e.target = p.fields.slug ∧ e.rel = ("prev") ∧
        ReactNode.text p.frontmatter.title ∈ e.children) ∧
    (∃ e ∈ nodeLinks (BlogPostTemplate.render props),
        e.target = n.fields.slug ∧ e.rel = ("next") ∧
        ReactNode.text n.frontmatter.title ∈ e.children) := by
  simp [BlogPostTemplate.render, nodeLinks, listLinks, hp, hn]

/-- Witness for C1 at concrete props with both siblings present. -/
theorem both_siblings_render_both_links_witness :
    (∃ e ∈ nodeLinks (BlogPostTemplate.render exampleBoth),
        e.target = examplePrev.fields.slug ∧ e.rel = ("prev") ∧
        ReactNode.text examplePrev.frontmatter.title ∈ e.children) ∧
    (∃ e ∈ nodeLinks (BlogPostTemplate.render exampleBoth),
        e.target = exampleNextPost.fields.slug ∧ e.rel = ("next") ∧
        ReactNode.text exampleNextPost.frontmatter.title ∈ e.children) :=
  both_siblings_render_both_links exampleBoth examplePrev exampleNextPost rfl rfl

/-- Claim C2: a missing optional sibling only suppresses the corresponding
navigation link: when `previous` is absent no link with `rel` prev occurs in
the render output, and when `next` is absent no link with `rel` next occurs.
The embedding is a total function, so no error is raised on absent siblings;
absence is handled solely by the conditional-rendering branches. -/
theorem missing_sibling_link_omitted (props : TemplateProps) :
    (props.pathContext.previous = none →
      (nodeLinks (BlogPostTemplate.render props)).filter
        (fun e => e.rel == ("prev")) = []) ∧
    (props.pathContext.next = none →
      (nodeLinks (BlogPostTemplate.render props)).filter
        (fun e => e.rel == ("next")) = []) := by
  constructor
  · intro hp
    cases hn : props.pathContext.next <;>
      simp [BlogPostTemplate.render, nodeLinks, listLinks, hp, hn]
  · intro hn
    cases hp : props.pathContext.previous <;>
      simp [BlogPostTemplate.render, nodeLinks, listLinks, hp, hn]

/-- Witness for C2 at concrete terminal-post props (no previous, no next). -/
theorem missing_sibling_link_omitted_witness :
    (nodeLinks (BlogPostTemplate.render exampleTerminal)).filter
      (fun e => e.rel == ("prev")) = [] ∧
    (nodeLinks (BlogPostTemplate.render exampleTerminal)).filter
      (fun e => e.rel == ("next")) = [] :=
  ⟨(missing_sibling_link_omitted exampleTerminal).1 rfl,
   (missing_sibling_link_omitted exampleTerminal).2 rfl⟩

/-- Claim C3: the page-head title is the post's frontmatter title followed by
the site title, joined by the separator bar, and it is the only head title the
template emits. -/
theorem page_head_title_concat (props : TemplateProps) :
    nodeHelmetTitles (BlogPostTemplate.render props) =
      [props.data.markdownRemark.frontmatter.title ++ " | " ++
        props.data.site.siteMetadata.title] := by
  cases hp : props.pathContext.previous <;>
    cases hn : props.pathContext.next <;>
      simp [BlogPostTemplate.render, nodeHelmetTitles, listHelmetTitles, hp, hn]

/-- Claim C4: the body region is exactly the post's pre-rendered html string,
injected verbatim as the sole raw-HTML (`dangerouslySetInnerHTML`) payload of
the render output. -/
theorem body_raw_html_verbatim (props : TemplateProps) :
    nodeRawHtml (BlogPostTemplate.render props) =
      [props.data.markdownRemark.html] := by
  cases hp : props.pathContext.previous <;>
    cases hn : props.pathContext.next <;>
      simp [BlogPostTemplate.render, nodeRawHtml, listRawHtml, hp, hn]

/-- Claim C5: the render output has exactly one comment-widget embed, it is
configured with a site identifier (shortname), and its per-post discussion
configuration has identifier equal to the post's id and title equal to the
post's frontmatter title. -/
theorem disqus_embed_config (props : TemplateProps) :
    ∃ s, nodeDisqusEmbeds (BlogPostTemplate.render props) =
      [(s, { identifier := props.data.markdownRemark.id,
             title := props.data.markdownRemark.frontmatter.title })] := by
  refine ⟨("dude-wait4-io"), ?_⟩
  cases hp : props.pathContext.previous <;>
    cases hn : props.pathContext.next <;>
      simp [BlogPostTemplate.render, nodeDisqusEmbeds, listDisqusEmbeds, hp, hn]

/-- Claim C9: the shortname of every comment-widget embed in the render
output is the fixed constant, for every input: it depends neither on the
queried site metadata nor on any other template input. -/
theorem disqus_shortname_constant (props : TemplateProps) :
    (nodeDisqusEmbeds (BlogPostTemplate.render props)).map Prod.fst =
      [("dude-wait4-io")] := by
  cases hp : props.pathContext.previous <;>
    cases hn : props.pathContext.next <;>
      simp [BlogPostTemplate.render, nodeDisqusEmbeds, listDisqusEmbeds, hp, hn]

/-- Claim C6: the theme override function returns, for every input, exactly
the two CSS rules: anchors get the blue color with the theme's background
image removed, and hovered anchors get the red color with underline text
decoration. -/
theorem overrideThemeStyles_rules {α β : Type} (helpers : α) (options : β) :
    overrideThemeStyles helpers options =
      [ (("a"), [(("color"), ("#3889f7")), (("backgroundImage"), ("none"))])
      , (("a:hover"), [(("color"), ("#e13532")), (("textDecoration"), ("underline"))]) ] :=
  rfl

/-- Claim C7: global styles are injected at module load if and only if the
NODE_ENV environment variable is not equal to the production value (an unset
variable also triggers injection, matching strict inequality on undefined). -/
theorem injectStyles_iff_not_production (node_env : Option String) :
    injectStylesAtLoad node_env = true ↔ node_env ≠ some ("production") := by
  simp [injectStylesAtLoad]

/-- Claim C8: for every input the semantic items of the rendered document
fragment are, in this order: the page-head title metadata, the post heading
text, the formatted date text, the raw HTML body injection, the previous and
next navigation links (each present exactly when its sibling is), and the
comment-widget mount point with its shortname and per-post identifier/title. -/
theorem render_fragment_order (props : TemplateProps) :
    nodeItems (BlogPostTemplate.render props) =
      [ Item.titleMeta (props.data.markdownRemark.frontmatter.title ++ " | " ++
          props.data.site.siteMetadata.title)
      , Item.textItem props.data.markdownRemark.frontmatter.title
      , Item.textItem props.data.markdownRemark.frontmatter.date
      , Item.rawHtml props.data.markdownRemark.html ]
      ++ (match props.pathContext.previous with
          | some p => [Item.navLink p.fields.slug ("prev") (("← ") ++ p.frontmatter.title)]
          | none => [])
      ++ (match props.pathContext.next with
          | some n => [Item.navLink n.fields.slug ("next") (n.frontmatter.title ++ (" →"))]
          | none => [])
      ++ [ Item.comments ("dude-wait4-io") props.data.markdownRemark.id
            props.data.markdownRemark.frontmatter.title ] := by
  cases hp : props.pathContext.previous <;>
    cases hn : props.pathContext.next <;>
      simp [BlogPostTemplate.render, nodeItems, listItems, textConcat, hp, hn]

/-- Claim C10: two template inputs that differ only in the site metadata's
author field (they agree once both authors are overwritten with a common
value) produce identical render outputs: the rendered page does not depend on
the author, even though the page query fetches it. -/
theorem render_independent_of_author (p₁ p₂ : TemplateProps) (a : String)
    (h : withAuthor p₁ a = withAuthor p₂ a) :
    BlogPostTemplate.render p₁ = BlogPostTemplate.render p₂ := by
  have h₁ : BlogPostTemplate.render (withAuthor p₁ a) = BlogPostTemplate.render p₁ := rfl
  have h₂ : BlogPostTemplate.render (withAuthor p₂ a) = BlogPostTemplate.render p₂ := rfl
  rw [← h₁, ← h₂, h]

/-- Witness for C10 at two concrete inputs differing only in the author. -/
theorem render_independent_of_author_witness :
    BlogPostTemplate.render (withAuthor exampleBoth ("Alice")) =
      BlogPostTemplate.render (withAuthor exampleBoth ("Bob")) :=
  render_independent_of_author (withAuthor exampleBoth ("Alice"))
    (withAuthor exampleBoth ("Bob")) ("") rfl
